import Mathlib

/-!
Shallow embedding of the `env` subcommand of the fnm Node.js version manager
(source file `src/commands/env.rs`): the activation orchestrator, the
multishell indirection manager (`generate_symlink_path` / `make_symlink`),
and the shell-selection policy, together with theorems settling the stated
behavioural claims.

Collaborators that live outside the provided source tree (the `Shell` trait
implementations, `FnmConfig`, `symlink_dir`, the CLI harness) are modelled
from the specification and carry a doc comment saying so.
-/

set_option maxRecDepth 8192

namespace Fnm

/-- Operating-system path, modelled as its textual content together with a
flag recording whether the underlying byte sequence is valid UTF-8 (Rust
`PathBuf::to_str` succeeds exactly when it is). -/
structure OsPath where
  s : String
  utf8 : Bool
deriving DecidableEq, Repr

/-- Rust `Path::join` with a plain (UTF-8, separator-free) file name:
appends a separator and the name; UTF-8 validity of the base is preserved. -/
def OsPath.join (p : OsPath) (name : String) : OsPath :=
  ⟨p.s ++ "/" ++ name, p.utf8⟩

/-- Rust `Path::to_str`: `some` textual content when the path is valid
UTF-8, `none` otherwise. -/
def OsPath.to_str (p : OsPath) : Option String :=
  if p.utf8 then some p.s else none

/-- Filesystem entry: a directory symbolic link with its target, or any
other kind of entry. -/
inductive FsEntry where
  | symlinkDir (target : OsPath)
  | other
deriving DecidableEq, Repr

/-- Modelled from the spec: the read-only configuration collaborator
(`FnmConfig`, whose module is not under `src/`): base directory, log level
rendered to text, download-mirror address, default-version directory. The
`base_dir` field is the value of `config.base_dir_with_default()`. -/
structure FnmConfig where
  base_dir : OsPath
  log_level : String
  node_dist_mirror : String
  default_version_dir : OsPath

/-- Modelled from the spec: the shell dialect provider contract (`dyn Shell`,
whose module is not under `src/`): pure string producers for the
path-prepend statement, the environment-variable export statement, and the
directory-change hook fragment. -/
structure Shell where
  path : OsPath → String
  set_env_var : String → String → String
  use_on_cd : FnmConfig → String

/-- Modelled from the spec: `AVAILABLE_SHELLS`, the closed enumerable set of
supported dialect names, the single source of truth for CLI validation and
for the inference-failure message. -/
def AVAILABLE_SHELLS : List String :=
  ["bash", "zsh", "fish", "powershell", "cmd"]

/-- Modelled from the spec: the CLI layer validates the `--shell` flag
against `AVAILABLE_SHELLS` (structopt `possible_values`). -/
def shellFlagAccepted (name : String) : Bool :=
  AVAILABLE_SHELLS.contains name

/-- Decimal rendering helper: emits the decimal digits of `n` (most
significant first), using the first argument as structural fuel. -/
def natToDecAux : Nat → Nat → List Char
  | 0, _ => []
  | fuel + 1, n => if n = 0 then [] else natToDecAux fuel (n / 10) ++ [Nat.digitChar (n % 10)]

/-- Standard decimal rendering of a natural number, as produced by Rust
integer formatting (`{}`). -/
def natToDec (n : Nat) : String :=
  if n = 0 then "0" else ⟨natToDecAux n n⟩

/-- Standard decimal rendering of an integer, as produced by Rust integer
formatting (`{}`). -/
def intToDec (i : Int) : String :=
  if i < 0 then "-" ++ natToDec i.natAbs else natToDec i.toNat

/-- Embedding of `generate_symlink_path`: joins to `root` the name
`fnm_multishell_<pid>_<millis>` formed from the fixed prefix, the process
id and a wall-clock timestamp in milliseconds. -/
def generate_symlink_path (root : OsPath) (pid : Nat) (now_millis : Int) : OsPath :=
  let temp_dir_name := "fnm_multishell_" ++ natToDec pid ++ "_" ++ intToDec now_millis
  root.join temp_dir_name

/-- The ambient operating-system state observed by one invocation: the
shared filesystem (a map from paths to entries), the system temporary
directory, the process id, the wall-clock millisecond timestamp returned by
the k-th clock sample, whether the OS symlink primitive succeeds, the
answer of the external shell-inference collaborator, and whether the
platform is Windows (`cfg!(windows)`). -/
structure World where
  fs : OsPath → Option FsEntry
  temp_dir : OsPath
  pid : Nat
  now_millis : Nat → Int
  symlink_ok : Bool
  inferred : Option Shell
  windows : Bool

/-- Modelled from the spec: `symlink_dir` (module `fs` is not under
`src/`), the single-call OS primitive creating a directory symbolic link at
`at_` pointing to `target`; it either fails (`none`) or returns the updated
filesystem. -/
def symlink_dir (fs : OsPath → Option FsEntry) (ok : Bool) (target at_ : OsPath) :
    Option (OsPath → Option FsEntry) :=
  if ok then some (fun q => if q = at_ then some (.symlinkDir target) else fs q) else none

/-- The candidate path examined at the k-th iteration of the collision
loop: `generate_symlink_path` applied to the k-th clock sample. -/
def candidate (w : World) (k : Nat) : OsPath :=
  generate_symlink_path w.temp_dir w.pid (w.now_millis k)

/-- The `while temp_dir.exists()` loop: starting from index `i`, return the
first index whose candidate is not occupied, giving up (`none`) when the
structural fuel runs out. -/
def searchFresh (occupied : Nat → Bool) : Nat → Nat → Option Nat
  | 0, _ => none
  | fuel + 1, i => if occupied i then searchFresh occupied fuel (i + 1) else some i

/-- Result of `make_symlink`: the chosen path and updated filesystem, a
panic (Rust `expect`), or a loop that never found a fresh path within the
modelled fuel. -/
inductive SymlinkResult where
  | ok (path : OsPath) (fs : OsPath → Option FsEntry)
  | panicked (msg : String)
  | spinning

/-- Embedding of `make_symlink`: sample candidate paths under the system
temporary directory until one does not exist, then create a directory
symlink there pointing at the configured default-version directory,
panicking (`expect`) when the primitive fails. -/
def make_symlink (w : World) (config : FnmConfig) (fuel : Nat) : SymlinkResult :=
  match searchFresh (fun k => (w.fs (candidate w k)).isSome) fuel 0 with
  | none => .spinning
  | some k =>
    match symlink_dir w.fs w.symlink_ok config.default_version_dir (candidate w k) with
    | some fs2 => .ok (candidate w k) fs2
    | none => .panicked "Can\x27t create symlink!"

/-- The `Env` subcommand arguments: optional explicit dialect, the
deprecated `--multi` flag, and the `--use-on-cd` hook flag. -/
structure Env where
  shell : Option Shell
  multi : Bool
  use_on_cd : Bool

/-- The error type of the `Env` command. -/
inductive Error where
  | CantInferShell
deriving DecidableEq, Repr

/-- Embedding of `shells_as_string`: one `* <name>` line per supported
shell, joined by newlines. -/
def shells_as_string : String :=
  String.intercalate "\n" (AVAILABLE_SHELLS.map (fun x => "* " ++ x))

/-- The snafu display string of `Error::CantInferShell`. -/
def Error.display : Error → String
  | .CantInferShell =>
    "Can\x27t infer shell!" ++ "\n" ++
    "fnm can\x27t infer your shell based on the process tree." ++ "\n" ++
    "Maybe it is unsupported? we support the following shells:" ++ "\n" ++
    shells_as_string

/-- How one invocation of `Env::apply` ends: normal return, a returned
error, a panic, or the collision loop spinning past the modelled fuel. -/
inductive ApplyResult where
  | ok
  | err (e : Error)
  | panicked (msg : String)
  | spinning
deriving DecidableEq, Repr

/-- Observable outcome of one invocation: the lines printed to standard
output, the lines printed to the diagnostic stream, and how the run ended. -/
structure Output where
  stdout : List String
  stderr : List String
  result : ApplyResult
deriving DecidableEq, Repr

/-- The deprecation warning emitted for `--multi` (colour codes elided);
modelled from the spec as going to the diagnostic stream (the `outln!`
macro is not under `src/`). -/
def deprecation_warning : String :=
  "warning: --multi is deprecated. This is now the default."

/-- The Rust panic message of `Option::unwrap` on `None`. -/
def unwrap_none_msg : String :=
  "called `Option::unwrap()` on a `None` value"

/-- The part of `Env::apply` after shell resolution: create the symlink,
then print the path-prepend line and the four environment-variable lines,
plus the hook fragment when `--use-on-cd` is set. `to_str().unwrap()`
panics leave the lines already printed on standard output. -/
def Env.emit (self : Env) (shell : Shell) (config : FnmConfig) (w : World) (fuel : Nat) :
    Output :=
  let warn := if self.multi then [deprecation_warning] else []
  match make_symlink w config fuel with
  | .spinning => ⟨[], warn, .spinning⟩
  | .panicked m => ⟨[], warn, .panicked m⟩
  | .ok multishell_path _ =>
    let binary_path := if w.windows then multishell_path else multishell_path.join "bin"
    let line1 := shell.path binary_path
    match multishell_path.to_str with
    | none => ⟨[line1], warn, .panicked unwrap_none_msg⟩
    | some mp =>
      let line2 := shell.set_env_var "FNM_MULTISHELL_PATH" mp
      match config.base_dir.to_str with
      | none => ⟨[line1, line2], warn, .panicked unwrap_none_msg⟩
      | some bd =>
        let line3 := shell.set_env_var "FNM_DIR" bd
        let line4 := shell.set_env_var "FNM_LOGLEVEL" config.log_level
        let line5 := shell.set_env_var "FNM_NODE_DIST_MIRROR" config.node_dist_mirror
        if self.use_on_cd then
          ⟨[line1, line2, line3, line4, line5, shell.use_on_cd config], warn, .ok⟩
        else
          ⟨[line1, line2, line3, line4, line5], warn, .ok⟩

/-- Embedding of `Env::apply`: warn on `--multi`, resolve the dialect
(explicit flag, else the inference collaborator, else fail with
`CantInferShell`), then emit the activation script. -/
def Env.apply (self : Env) (config : FnmConfig) (w : World) (fuel : Nat) : Output :=
  match self.shell.orElse (fun _ => w.inferred) with
  | none => ⟨[], if self.multi then [deprecation_warning] else [], .err .CantInferShell⟩
  | some shell => self.emit shell config w fuel

/-- Modelled from the spec: the CLI harness exit behaviour (the generic
command runner is not under `src/`): success exits 0, a returned error
exits 1, a panic aborts with the Rust panic exit status; a spinning loop
never exits. -/
def exit_code (o : Output) : Option Nat :=
  match o.result with
  | .ok => some 0
  | .err _ => some 1
  | .panicked _ => some 101
  | .spinning => none

/-! Concrete fixtures used to instantiate the theorems. -/

/-- Sample POSIX-style dialect used to instantiate the theorems on
concrete inputs. -/
def bashShell : Shell :=
  ⟨fun p => "export PATH=" ++ p.s ++ ":$PATH",
   fun n v => "export " ++ n ++ "=" ++ v,
   fun _ => "__fnm_autoload_hook"⟩

/-- Sample configuration matching the scenario of the specification. -/
def cfg0 : FnmConfig :=
  ⟨⟨"/opt/versions", true⟩, "info", "https://mirror.example", ⟨"/opt/versions/current", true⟩⟩

/-- Sample world: empty filesystem, `/tmp` temporary root, process id 1,
clock stuck at millisecond 0, a working symlink primitive, no inference
answer, not Windows. -/
def w0 : World := ⟨fun _ => none, ⟨"/tmp", true⟩, 1, fun _ => 0, true, none, false⟩

/-- The world `w0` with a failing symlink primitive. -/
def w0f : World := { w0 with symlink_ok := false }

/-- The path `make_symlink` picks in `w0`. -/
def p0 : OsPath := ⟨"/tmp/fnm_multishell_1_0", true⟩

/-- The filesystem produced by `make_symlink` in `w0`. -/
def fs0 : OsPath → Option FsEntry :=
  fun q => if q = p0 then some (.symlinkDir ⟨"/opt/versions/current", true⟩) else none

/-! Lemmas about the collision-avoidance search. -/

/-- Soundness of the collision loop: a returned index is at or after the
start, its candidate is unoccupied, and every candidate strictly before it
(from the start) was occupied. -/
theorem searchFresh_eq_some (occupied : Nat → Bool) :
    ∀ (fuel i k : Nat), searchFresh occupied fuel i = some k →
      occupied k = false ∧ i ≤ k ∧ ∀ j, i ≤ j → j < k → occupied j = true := by
  intro fuel
  induction fuel with
  | zero => intro i k h; simp [searchFresh] at h
  | succ fuel ih =>
    intro i k h
    simp only [searchFresh] at h
    by_cases hocc : occupied i = true
    · rw [if_pos hocc] at h
      obtain ⟨h1, h2, h3⟩ := ih (i + 1) k h
      refine ⟨h1, Nat.le_trans (Nat.le_succ i) h2, ?_⟩
      intro j hij hjk
      rcases Nat.eq_or_lt_of_le hij with rfl | hlt
      · exact hocc
      · exact h3 j hlt hjk
    · rw [if_neg hocc] at h
      cases h
      exact ⟨Bool.eq_false_iff.mpr hocc, Nat.le_refl i, fun j hij hji => absurd (Nat.lt_of_le_of_lt hij hji) (Nat.lt_irrefl i)⟩

/-- Completeness of the collision loop: when some candidate within the
fuel bound is unoccupied, the search succeeds. -/
theorem searchFresh_isSome (occupied : Nat → Bool) :
    ∀ (fuel i d : Nat), d < fuel → occupied (i + d) = false →
      (searchFresh occupied fuel i).isSome = true := by
  intro fuel
  induction fuel with
  | zero => intro i d h; omega
  | succ fuel ih =>
    intro i d hd hfree
    simp only [searchFresh]
    by_cases hocc : occupied i = true
    · rw [if_pos hocc]
      have hdne : d ≠ 0 := by
        intro h0
        rw [h0, Nat.add_zero] at hfree
        rw [hocc] at hfree
        cases hfree
      have : (i + 1) + (d - 1) = i + d := by omega
      exact ih (i + 1) (d - 1) (by omega) (this ▸ hfree)
    · rw [if_neg hocc]; rfl

/-! Lemmas about decimal rendering. -/

/-- The fuel-based digit emitter agrees with the Mathlib decimal digit
list once the fuel dominates the number. -/
theorem natToDecAux_eq_digits :
    ∀ (fuel n : Nat), n ≤ fuel →
      natToDecAux fuel n = ((Nat.digits 10 n).reverse.map Nat.digitChar) := by
  intro fuel
  induction fuel with
  | zero =>
    intro n hn
    have : n = 0 := Nat.le_zero.mp hn
    subst this
    simp [natToDecAux]
  | succ fuel ih =>
    intro n hn
    by_cases h0 : n = 0
    · subst h0; simp [natToDecAux]
    · have hpos : 0 < n := Nat.pos_of_ne_zero h0
      have hdiv : n / 10 ≤ fuel := by
        have : n / 10 < n := Nat.div_lt_self hpos (by omega)
        omega
      rw [natToDecAux, if_neg h0, ih (n / 10) hdiv,
        Nat.digits_def' (b := 10) (by omega) hpos]
      simp

/-- Characters produced for digits below ten are pairwise distinct. -/
theorem digitChar_inj_fin : ∀ a b : Fin 10, Nat.digitChar a.val = Nat.digitChar b.val → a = b := by
  decide

/-- Characters produced for digits below ten are never an underscore. -/
theorem digitChar_ne_underscore_fin : ∀ a : Fin 10, Nat.digitChar a.val ≠ '_' := by
  decide

/-- Mapping `Nat.digitChar` over lists of digits below ten is injective. -/
theorem map_digitChar_inj :
    ∀ (l1 l2 : List Nat), (∀ x ∈ l1, x < 10) → (∀ x ∈ l2, x < 10) →
      l1.map Nat.digitChar = l2.map Nat.digitChar → l1 = l2 := by
  intro l1
  induction l1 with
  | nil =>
    intro l2 _ _ h
    cases l2 with
    | nil => rfl
    | cons b t => simp at h
  | cons a t1 ih =>
    intro l2 hb1 hb2 h
    cases l2 with
    | nil => simp at h
    | cons b t2 =>
      simp only [List.map_cons, List.cons.injEq] at h
      have ha : a < 10 := hb1 a (List.mem_cons_self a t1)
      have hb : b < 10 := hb2 b (List.mem_cons_self b t2)
      have hab : a = b := congrArg Fin.val (digitChar_inj_fin ⟨a, ha⟩ ⟨b, hb⟩ h.1)
      have ht : t1 = t2 :=
        ih t2 (fun x hx => hb1 x (List.mem_cons_of_mem a hx))
          (fun x hx => hb2 x (List.mem_cons_of_mem b hx)) h.2
      rw [hab, ht]

/-- Only zero renders to the string `0`. -/
theorem natToDec_eq_zero_str {n : Nat} (h : natToDec n = "0") : n = 0 := by
  by_contra hn
  rw [natToDec, if_neg hn, natToDecAux_eq_digits n n (Nat.le_refl n)] at h
  have hd : (Nat.digits 10 n).reverse.map Nat.digitChar = ['0'] := congrArg String.data h
  cases hrev : (Nat.digits 10 n).reverse with
  | nil => rw [hrev] at hd; simp at hd
  | cons d t =>
    rw [hrev] at hd
    simp only [List.map_cons, List.cons.injEq] at hd
    obtain ⟨hd0, ht⟩ := hd
    have htnil : t = [] := List.map_eq_nil_iff.mp ht
    have hdm : d ∈ Nat.digits 10 n := by
      have : d ∈ (Nat.digits 10 n).reverse := by rw [hrev]; exact List.mem_cons_self d t
      exact List.mem_reverse.mp this
    have hdlt : d < 10 := Nat.digits_lt_base (by omega) hdm
    have hdz : d = 0 := by
      have h0 : Nat.digitChar d = Nat.digitChar (0 : Nat) := hd0
      exact congrArg Fin.val (digitChar_inj_fin ⟨d, hdlt⟩ ⟨0, by omega⟩ h0)
    subst htnil
    have hdig : Nat.digits 10 n = [d] := by
      have h2 := congrArg List.reverse hrev
      simpa using h2
    have hofd := Nat.ofDigits_digits 10 n
    rw [hdig, hdz, Nat.ofDigits_singleton] at hofd
    exact hn hofd.symm

/-- Decimal rendering of naturals is injective. -/
theorem natToDec_inj {m n : Nat} (h : natToDec m = natToDec n) : m = n := by
  by_cases hm : m = 0 <;> by_cases hn : n = 0
  · rw [hm, hn]
  · exfalso
    have h0 : natToDec n = "0" := by
      rw [← h, hm]; rfl
    exact hn (natToDec_eq_zero_str h0)
  · exfalso
    have h0 : natToDec m = "0" := by
      rw [h, hn]; rfl
    exact hm (natToDec_eq_zero_str h0)
  · have hmm : natToDec m = ⟨(Nat.digits 10 m).reverse.map Nat.digitChar⟩ := by
      rw [natToDec, if_neg hm, natToDecAux_eq_digits m m (Nat.le_refl m)]
    have hnn : natToDec n = ⟨(Nat.digits 10 n).reverse.map Nat.digitChar⟩ := by
      rw [natToDec, if_neg hn, natToDecAux_eq_digits n n (Nat.le_refl n)]
    rw [hmm, hnn] at h
    have hd : (Nat.digits 10 m).reverse.map Nat.digitChar
        = (Nat.digits 10 n).reverse.map Nat.digitChar := congrArg String.data h
    have hrev : (Nat.digits 10 m).reverse = (Nat.digits 10 n).reverse := by
      refine map_digitChar_inj _ _ ?_ ?_ hd
      · intro x hx
        exact Nat.digits_lt_base (by omega) (List.mem_reverse.mp hx)
      · intro x hx
        exact Nat.digits_lt_base (by omega) (List.mem_reverse.mp hx)
    have hdig : Nat.digits 10 m = Nat.digits 10 n := by
      have := congrArg List.reverse hrev
      simpa using this
    have := congrArg (Nat.ofDigits 10) hdig
    rwa [Nat.ofDigits_digits, Nat.ofDigits_digits] at this

/-- Decimal rendering of naturals never contains an underscore. -/
theorem natToDec_no_underscore (n : Nat) : ∀ c ∈ (natToDec n).data, c ≠ '_' := by
  by_cases h0 : n = 0
  · subst h0
    intro c hc
    have : c = '0' := by
      simpa [show (natToDec 0).data = ['0'] from rfl] using hc
    subst this
    decide
  · intro c hc
    rw [natToDec, if_neg h0, natToDecAux_eq_digits n n (Nat.le_refl n)] at hc
    simp only [List.mem_map] at hc
    obtain ⟨d, hd, rfl⟩ := hc
    have hdlt : d < 10 := Nat.digits_lt_base (by omega) (List.mem_reverse.mp hd)
    exact digitChar_ne_underscore_fin ⟨d, hdlt⟩

/-- Splitting at the first underscore: two decompositions of a character
list around an underscore, whose left parts are underscore-free, agree. -/
theorem append_underscore_inj :
    ∀ (l1 l2 r1 r2 : List Char), ('_' ∉ l1) → ('_' ∉ l2) →
      l1 ++ '_' :: r1 = l2 ++ '_' :: r2 → l1 = l2 ∧ r1 = r2 := by
  intro l1
  induction l1 with
  | nil =>
    intro l2 r1 r2 _ h2 h
    cases l2 with
    | nil => simp only [List.nil_append, List.cons.injEq] at h; exact ⟨rfl, h.2⟩
    | cons c t =>
      exfalso
      simp only [List.nil_append, List.cons_append, List.cons.injEq] at h
      exact h2 (h.1 ▸ List.mem_cons_self c t)
  | cons c t ih =>
    intro l2 r1 r2 h1 h2 h
    cases l2 with
    | nil =>
      exfalso
      simp only [List.cons_append, List.nil_append, List.cons.injEq] at h
      exact h1 (h.1 ▸ List.mem_cons_self c t)
    | cons b u =>
      simp only [List.cons_append, List.cons.injEq] at h
      obtain ⟨rfl, hrest⟩ := h
      have ht1 : '_' ∉ t := fun hm => h1 (List.mem_cons_of_mem c hm)
      have ht2 : '_' ∉ u := fun hm => h2 (List.mem_cons_of_mem c hm)
      obtain ⟨hl, hr⟩ := ih u r1 r2 ht1 ht2 hrest
      exact ⟨by rw [hl], hr⟩

/-- Distinct process identifiers yield distinct generated symlink paths,
even in the same millisecond and under the same root. -/
theorem generate_symlink_path_pid_inj (root : OsPath) (pid1 pid2 : Nat) (ts : Int)
    (hne : pid1 ≠ pid2) :
    generate_symlink_path root pid1 ts ≠ generate_symlink_path root pid2 ts := by
  intro h
  apply hne
  have hs : (generate_symlink_path root pid1 ts).s = (generate_symlink_path root pid2 ts).s :=
    congrArg OsPath.s h
  simp only [generate_symlink_path, OsPath.join] at hs
  have hd := congrArg String.data hs
  simp only [String.data_append, List.append_assoc] at hd
  have hd2 := List.append_cancel_left hd
  have hd3 := List.append_cancel_left hd2
  have hd4 := List.append_cancel_left hd3
  have hdec : (natToDec pid1).data = (natToDec pid2).data := by
    refine (append_underscore_inj (natToDec pid1).data (natToDec pid2).data
      (intToDec ts).data (intToDec ts).data ?_ ?_ ?_).1
    · intro hm; exact natToDec_no_underscore pid1 '_' hm rfl
    · intro hm; exact natToDec_no_underscore pid2 '_' hm rfl
    · exact hd4
  exact natToDec_inj (String.ext hdec)

/-! Lemmas about `make_symlink` and `Env.apply`. -/

/-- Unpacking a successful `make_symlink` run: the returned path is the
candidate of some iteration `k`, it was unoccupied at the existence check,
every earlier candidate was occupied, the OS primitive succeeded, and the
returned filesystem is the point update creating the symlink. -/
theorem make_symlink_ok_spec (w : World) (config : FnmConfig) (fuel : Nat) (p : OsPath)
    (fs2 : OsPath → Option FsEntry) (h : make_symlink w config fuel = .ok p fs2) :
    ∃ k, p = candidate w k ∧ w.fs p = none
      ∧ (∀ j, j < k → (w.fs (candidate w j)).isSome = true)
      ∧ w.symlink_ok = true
      ∧ fs2 = fun q =>
          if q = p then some (.symlinkDir config.default_version_dir) else w.fs q := by
  unfold make_symlink at h
  cases hs : searchFresh (fun k => (w.fs (candidate w k)).isSome) fuel 0 with
  | none => rw [hs] at h; exact SymlinkResult.noConfusion h
  | some k =>
    rw [hs] at h
    obtain ⟨hfree, _, hall⟩ :=
      searchFresh_eq_some (fun k => (w.fs (candidate w k)).isSome) fuel 0 k hs
    unfold symlink_dir at h
    cases hok : w.symlink_ok with
    | false => rw [hok] at h; simp only [if_neg] at h; exact SymlinkResult.noConfusion h
    | true =>
      rw [hok] at h
      simp only [if_pos] at h
      injection h with hp hf
      refine ⟨k, hp.symm, ?_, ?_, rfl, ?_⟩
      · rw [← hp]
        exact Option.not_isSome_iff_eq_none.mp (by rw [hfree]; exact Bool.false_ne_true)
      · intro j hj
        exact hall j (Nat.zero_le j) hj
      · rw [← hf, ← hp]

/-- The returned path inherits UTF-8 validity from the system temporary
directory (its name component is generated ASCII). -/
theorem make_symlink_ok_utf8 (w : World) (config : FnmConfig) (fuel : Nat) (p : OsPath)
    (fs2 : OsPath → Option FsEntry) (h : make_symlink w config fuel = .ok p fs2) :
    p.utf8 = w.temp_dir.utf8 := by
  obtain ⟨k, hp, _⟩ := make_symlink_ok_spec w config fuel p fs2 h
  rw [hp]
  rfl

/-- Resolving the dialect reduces `Env::apply` to the post-resolution
emission phase with the resolved shell. -/
theorem apply_resolved (self : Env) (s : Shell) (config : FnmConfig) (w : World) (fuel : Nat)
    (hres : self.shell.orElse (fun _ => w.inferred) = some s) :
    Env.apply self config w fuel = Env.emit self s config w fuel := by
  unfold Env.apply
  rw [hres]

/-- The standard-output content and the result of the emission phase after
a successful symlink creation on UTF-8 paths: the five fixed lines plus
the optional hook fragment, ending normally. -/
theorem emit_stdout_ok (self : Env) (s : Shell) (config : FnmConfig) (w : World) (fuel : Nat)
    (p : OsPath) (fs2 : OsPath → Option FsEntry)
    (hmk : make_symlink w config fuel = .ok p fs2)
    (hmp : p.utf8 = true) (hbd : config.base_dir.utf8 = true) :
    (Env.emit self s config w fuel).stdout =
      [s.path (if w.windows then p else p.join "bin"),
       s.set_env_var "FNM_MULTISHELL_PATH" p.s,
       s.set_env_var "FNM_DIR" config.base_dir.s,
       s.set_env_var "FNM_LOGLEVEL" config.log_level,
       s.set_env_var "FNM_NODE_DIST_MIRROR" config.node_dist_mirror]
      ++ (if self.use_on_cd then [s.use_on_cd config] else [])
    ∧ (Env.emit self s config w fuel).result = .ok := by
  unfold Env.emit
  rw [hmk]
  simp only [OsPath.to_str, hmp, if_pos, hbd]
  cases h : self.use_on_cd <;> simp

/-! Claim theorems. -/

/-- C1: whenever a dialect is resolved, the symlink is created (the UTF-8
precondition of C10 holding), and the hook flag is not set, standard
output is exactly the five lines: path-prepend for the binary directory
(the `bin` child of the indirection path off Windows, the indirection path
itself on Windows), then FNM_MULTISHELL_PATH, FNM_DIR, FNM_LOGLEVEL and
FNM_NODE_DIST_MIRROR exports, in that fixed order and nothing else. -/
theorem five_fixed_lines (self : Env) (s : Shell) (config : FnmConfig) (w : World)
    (fuel : Nat) (p : OsPath) (fs2 : OsPath → Option FsEntry)
    (hres : self.shell.orElse (fun _ => w.inferred) = some s)
    (hmk : make_symlink w config fuel = .ok p fs2)
    (hcd : self.use_on_cd = false)
    (hmp : p.utf8 = true) (hbd : config.base_dir.utf8 = true) :
    (Env.apply self config w fuel).stdout =
      [s.path (if w.windows then p else p.join "bin"),
       s.set_env_var "FNM_MULTISHELL_PATH" p.s,
       s.set_env_var "FNM_DIR" config.base_dir.s,
       s.set_env_var "FNM_LOGLEVEL" config.log_level,
       s.set_env_var "FNM_NODE_DIST_MIRROR" config.node_dist_mirror] := by
  rw [apply_resolved self s config w fuel hres]
  obtain ⟨hstdout, _⟩ := emit_stdout_ok self s config w fuel p fs2 hmk hmp hbd
  rw [hstdout, hcd]
  simp

/-- Witness for C1 at a concrete invocation. -/
theorem five_fixed_lines_witness :
    (Env.apply ⟨some bashShell, false, false⟩ cfg0 w0 1).stdout =
      ["export PATH=/tmp/fnm_multishell_1_0/bin:$PATH",
       "export FNM_MULTISHELL_PATH=/tmp/fnm_multishell_1_0",
       "export FNM_DIR=/opt/versions",
       "export FNM_LOGLEVEL=info",
       "export FNM_NODE_DIST_MIRROR=https://mirror.example"] :=
  five_fixed_lines ⟨some bashShell, false, false⟩ bashShell cfg0 w0 1 p0 fs0
    rfl rfl rfl rfl rfl

/-- C8: an invocation identical to a five-line one except for the hook
flag prints the same five lines followed by exactly one additional line,
the hook-installation fragment of the dialect. -/
theorem hook_flag_appends_one_line (self : Env) (s : Shell) (config : FnmConfig) (w : World)
    (fuel : Nat) (p : OsPath) (fs2 : OsPath → Option FsEntry)
    (hres : self.shell.orElse (fun _ => w.inferred) = some s)
    (hmk : make_symlink w config fuel = .ok p fs2)
    (hmp : p.utf8 = true) (hbd : config.base_dir.utf8 = true) :
    (Env.apply ⟨self.shell, self.multi, true⟩ config w fuel).stdout =
      (Env.apply ⟨self.shell, self.multi, false⟩ config w fuel).stdout
        ++ [s.use_on_cd config] := by
  obtain ⟨sh, mu, cd⟩ := self
  have hres1 : (Env.mk sh mu true).shell.orElse (fun _ => w.inferred) = some s := hres
  have hres0 : (Env.mk sh mu false).shell.orElse (fun _ => w.inferred) = some s := hres
  rw [apply_resolved (Env.mk sh mu true) s config w fuel hres1,
    apply_resolved (Env.mk sh mu false) s config w fuel hres0]
  obtain ⟨h1, _⟩ := emit_stdout_ok (Env.mk sh mu true) s config w fuel p fs2 hmk hmp hbd
  obtain ⟨h0, _⟩ := emit_stdout_ok (Env.mk sh mu false) s config w fuel p fs2 hmk hmp hbd
  rw [h1, h0]
  simp

/-- Witness for C8 at a concrete invocation. -/
theorem hook_flag_appends_one_line_witness :
    (Env.apply ⟨some bashShell, false, true⟩ cfg0 w0 1).stdout =
      (Env.apply ⟨some bashShell, false, false⟩ cfg0 w0 1).stdout
        ++ [bashShell.use_on_cd cfg0] :=
  hook_flag_appends_one_line ⟨some bashShell, false, false⟩ bashShell cfg0 w0 1 p0 fs0
    rfl rfl rfl rfl

/-- C9: setting the deprecated multi flag never changes standard output or
the way the run ends; it only adds the deprecation warning line on the
diagnostic stream. -/
theorem multi_flag_only_warns (sh : Option Shell) (cd : Bool) (config : FnmConfig)
    (w : World) (fuel : Nat) :
    (Env.apply ⟨sh, true, cd⟩ config w fuel).stdout
      = (Env.apply ⟨sh, false, cd⟩ config w fuel).stdout
    ∧ (Env.apply ⟨sh, true, cd⟩ config w fuel).result
      = (Env.apply ⟨sh, false, cd⟩ config w fuel).result
    ∧ (Env.apply ⟨sh, true, cd⟩ config w fuel).stderr
      = deprecation_warning :: (Env.apply ⟨sh, false, cd⟩ config w fuel).stderr := by
  unfold Env.apply Env.emit
  cases ho : sh.orElse (fun _ => w.inferred) with
  | none => simp [ho]
  | some s =>
    simp only [ho]
    cases hm : make_symlink w config fuel with
    | spinning => simp [hm]
    | panicked m => simp [hm]
    | ok p fs2 =>
      simp only [hm]
      cases hp : p.to_str with
      | none => simp [hp]
      | some mp =>
        simp only [hp]
        cases hb : config.base_dir.to_str with
        | none => simp [hb]
        | some bd => cases cd <;> simp [hb]

/-- C4: when symlink creation fails, the invocation aborts (Rust panic,
non-zero exit) carrying the diagnostic message, and standard output is
completely empty: no partial script is ever emitted. -/
theorem symlink_failure_empty_stdout (self : Env) (s : Shell) (config : FnmConfig)
    (w : World) (fuel : Nat) (m : String)
    (hres : self.shell.orElse (fun _ => w.inferred) = some s)
    (hmk : make_symlink w config fuel = .panicked m) :
    (Env.apply self config w fuel).stdout = []
    ∧ (Env.apply self config w fuel).result = .panicked m
    ∧ exit_code (Env.apply self config w fuel) = some 101 := by
  rw [apply_resolved self s config w fuel hres]
  unfold Env.emit
  rw [hmk]
  exact ⟨rfl, rfl, rfl⟩

/-- Witness for C4 at a concrete invocation with a failing primitive. -/
theorem symlink_failure_empty_stdout_witness :
    (Env.apply ⟨some bashShell, false, false⟩ cfg0 w0f 1).stdout = []
    ∧ (Env.apply ⟨some bashShell, false, false⟩ cfg0 w0f 1).result
        = .panicked "Can\x27t create symlink!"
    ∧ exit_code (Env.apply ⟨some bashShell, false, false⟩ cfg0 w0f 1) = some 101 :=
  symlink_failure_empty_stdout ⟨some bashShell, false, false⟩ bashShell cfg0 w0f 1
    "Can\x27t create symlink!" rfl rfl

/-- C5: when an explicit dialect is supplied, the inference collaborator
is never consulted (the outcome is invariant under any inference answer)
and the supplied dialect is the one driving every emitted fragment. -/
theorem explicit_dialect_skips_inference (self : Env) (s : Shell) (config : FnmConfig)
    (w : World) (fuel : Nat) (hexp : self.shell = some s) :
    Env.apply self config w fuel = Env.emit self s config w fuel
    ∧ ∀ inf, Env.apply self config { w with inferred := inf } fuel
        = Env.apply self config w fuel := by
  have h1 : Env.apply self config w fuel = Env.emit self s config w fuel := by
    unfold Env.apply
    rw [hexp]
    rfl
  refine ⟨h1, ?_⟩
  intro inf
  have h2 : Env.apply self config { w with inferred := inf } fuel
      = Env.emit self s config { w with inferred := inf } fuel := by
    unfold Env.apply
    rw [hexp]
    rfl
  rw [h1, h2]
  clear h1 h2
  cases w
  rfl

/-- Witness for C5 at a concrete invocation. -/
theorem explicit_dialect_skips_inference_witness :
    Env.apply ⟨some bashShell, false, false⟩ cfg0 w0 1
        = Env.emit ⟨some bashShell, false, false⟩ bashShell cfg0 w0 1
    ∧ ∀ inf, Env.apply ⟨some bashShell, false, false⟩ cfg0 { w0 with inferred := inf } 1
        = Env.apply ⟨some bashShell, false, false⟩ cfg0 w0 1 :=
  explicit_dialect_skips_inference ⟨some bashShell, false, false⟩ bashShell cfg0 w0 1 rfl

/-- C3: a successful `make_symlink` hands back a path that had no
filesystem entry at the existence check immediately before creation and at
which exactly one entry now exists, a directory symlink resolving to the
configured default-version directory; no other path changed. -/
theorem make_symlink_creates_fresh_symlink (w : World) (config : FnmConfig) (fuel : Nat)
    (p : OsPath) (fs2 : OsPath → Option FsEntry)
    (h : make_symlink w config fuel = .ok p fs2) :
    fs2 p = some (.symlinkDir config.default_version_dir)
    ∧ w.fs p = none
    ∧ ∀ q, q ≠ p → fs2 q = w.fs q := by
  obtain ⟨k, hp, hfree, _, _, hupd⟩ := make_symlink_ok_spec w config fuel p fs2 h
  subst hupd
  refine ⟨by simp, hfree, ?_⟩
  intro q hq
  simp [hq]

/-- Witness for C3 at a concrete invocation. -/
theorem make_symlink_creates_fresh_symlink_witness :
    fs0 p0 = some (.symlinkDir cfg0.default_version_dir)
    ∧ w0.fs p0 = none
    ∧ ∀ q, q ≠ p0 → fs0 q = w0.fs q :=
  make_symlink_creates_fresh_symlink w0 cfg0 1 p0 fs0 rfl

/-- C6: the path a successful `make_symlink` returns was produced by
joining to the temporary-directory root a name made of the fixed prefix,
the process id and the timestamp sampled at some iteration `k`; the
candidate of every earlier iteration (each with its own fresh timestamp
sample) existed, and the returned one did not. -/
theorem symlink_path_shape (w : World) (config : FnmConfig) (fuel : Nat)
    (p : OsPath) (fs2 : OsPath → Option FsEntry)
    (h : make_symlink w config fuel = .ok p fs2) :
    ∃ k, p = w.temp_dir.join
          ("fnm_multishell_" ++ natToDec w.pid ++ "_" ++ intToDec (w.now_millis k))
      ∧ w.fs p = none
      ∧ ∀ j, j < k →
          (w.fs (w.temp_dir.join
            ("fnm_multishell_" ++ natToDec w.pid ++ "_" ++ intToDec (w.now_millis j)))).isSome
            = true := by
  obtain ⟨k, hp, hfree, hall, _, _⟩ := make_symlink_ok_spec w config fuel p fs2 h
  exact ⟨k, hp, hfree, hall⟩

/-- Witness for C6 at a concrete invocation. -/
theorem symlink_path_shape_witness :
    ∃ k, p0 = w0.temp_dir.join
          ("fnm_multishell_" ++ natToDec w0.pid ++ "_" ++ intToDec (w0.now_millis k))
      ∧ w0.fs p0 = none
      ∧ ∀ j, j < k →
          (w0.fs (w0.temp_dir.join
            ("fnm_multishell_" ++ natToDec w0.pid ++ "_" ++ intToDec (w0.now_millis j)))).isSome
            = true :=
  symlink_path_shape w0 cfg0 1 p0 fs0 rfl

/-- C7: when some candidate within the fuel bound is free (the
non-adversarial condition), the collision-avoidance loop terminates within
that bound; and two invocations with different process identifiers in the
same millisecond can never generate the same path. -/
theorem collision_loop_bounded_and_pid_unique (w : World) (config : FnmConfig)
    (fuel k : Nat) (hk : k < fuel) (hfree : w.fs (candidate w k) = none) :
    make_symlink w config fuel ≠ .spinning
    ∧ ∀ (root : OsPath) (pid1 pid2 : Nat) (ts : Int), pid1 ≠ pid2 →
        generate_symlink_path root pid1 ts ≠ generate_symlink_path root pid2 ts := by
  constructor
  · have hsome := searchFresh_isSome (fun j => (w.fs (candidate w j)).isSome) fuel 0 k hk
      (by simp [Nat.zero_add, hfree])
    unfold make_symlink
    cases hs : searchFresh (fun j => (w.fs (candidate w j)).isSome) fuel 0 with
    | none => rw [hs] at hsome; exact absurd hsome (by simp)
    | some k2 =>
      unfold symlink_dir
      cases w.symlink_ok <;> simp
  · intro root pid1 pid2 ts hne
    exact generate_symlink_path_pid_inj root pid1 pid2 ts hne

/-- Witness for C7 at a concrete invocation. -/
theorem collision_loop_bounded_and_pid_unique_witness :
    make_symlink w0 cfg0 1 ≠ .spinning
    ∧ ∀ (root : OsPath) (pid1 pid2 : Nat) (ts : Int), pid1 ≠ pid2 →
        generate_symlink_path root pid1 ts ≠ generate_symlink_path root pid2 ts :=
  collision_loop_bounded_and_pid_unique w0 cfg0 1 0 (by decide) rfl

/-- C2: with no explicit dialect and a failing inference collaborator, the
command prints nothing on standard output, returns the CantInferShell
error, exits non-zero, and the error message enumerates (as a `* <name>`
line) every dialect accepted by the `--shell` CLI flag. -/
theorem infer_failure_behavior (self : Env) (config : FnmConfig) (w : World) (fuel : Nat)
    (hexp : self.shell = none) (hinf : w.inferred = none) :
    (Env.apply self config w fuel).stdout = []
    ∧ (Env.apply self config w fuel).result = .err .CantInferShell
    ∧ exit_code (Env.apply self config w fuel) = some 1
    ∧ ∀ name, shellFlagAccepted name = true →
        ∃ pre post, Error.display .CantInferShell = pre ++ ("* " ++ name) ++ post := by
  have happ : Env.apply self config w fuel =
      ⟨[], if self.multi then [deprecation_warning] else [], .err .CantInferShell⟩ := by
    unfold Env.apply
    rw [hexp]
    simp only [hinf]
    rfl
  refine ⟨by rw [happ], by rw [happ], by rw [happ]; rfl, ?_⟩
  intro name hname
  have hmem : name ∈ AVAILABLE_SHELLS := by
    simpa [shellFlagAccepted, List.contains] using hname
  simp only [AVAILABLE_SHELLS, List.mem_cons, List.mem_singleton] at hmem
  rcases hmem with rfl | rfl | rfl | rfl | rfl | h
  · exact ⟨"Can\x27t infer shell!\nfnm can\x27t infer your shell based on the process tree.\nMaybe it is unsupported? we support the following shells:\n",
      "\n* zsh\n* fish\n* powershell\n* cmd", by decide⟩
  · exact ⟨"Can\x27t infer shell!\nfnm can\x27t infer your shell based on the process tree.\nMaybe it is unsupported? we support the following shells:\n* bash\n",
      "\n* fish\n* powershell\n* cmd", by decide⟩
  · exact ⟨"Can\x27t infer shell!\nfnm can\x27t infer your shell based on the process tree.\nMaybe it is unsupported? we support the following shells:\n* bash\n* zsh\n",
      "\n* powershell\n* cmd", by decide⟩
  · exact ⟨"Can\x27t infer shell!\nfnm can\x27t infer your shell based on the process tree.\nMaybe it is unsupported? we support the following shells:\n* bash\n* zsh\n* fish\n",
      "\n* cmd", by decide⟩
  · exact ⟨"Can\x27t infer shell!\nfnm can\x27t infer your shell based on the process tree.\nMaybe it is unsupported? we support the following shells:\n* bash\n* zsh\n* fish\n* powershell\n",
      "", by decide⟩
  · cases h

/-- Witness for C2 at a concrete invocation. -/
theorem infer_failure_behavior_witness :
    (Env.apply ⟨none, false, false⟩ cfg0 w0 1).stdout = []
    ∧ (Env.apply ⟨none, false, false⟩ cfg0 w0 1).result = .err .CantInferShell
    ∧ exit_code (Env.apply ⟨none, false, false⟩ cfg0 w0 1) = some 1
    ∧ ∀ name, shellFlagAccepted name = true →
        ∃ pre post, Error.display .CantInferShell = pre ++ ("* " ++ name) ++ post :=
  infer_failure_behavior ⟨none, false, false⟩ cfg0 w0 1 rfl rfl

/-- C10: because the indirection path and the base directory are converted
with `to_str().unwrap()`, a non-UTF-8 path makes the invocation panic
rather than return an error; under the precondition that the system
temporary directory and the configured base directory are valid UTF-8,
those panic branches are unreachable and the run ends normally. -/
theorem utf8_unwrap_behavior (self : Env) (s : Shell) (config : FnmConfig) (w : World)
    (fuel : Nat) (p : OsPath) (fs2 : OsPath → Option FsEntry)
    (hres : self.shell.orElse (fun _ => w.inferred) = some s)
    (hmk : make_symlink w config fuel = .ok p fs2) :
    (p.utf8 = false → (Env.apply self config w fuel).result = .panicked unwrap_none_msg)
    ∧ (p.utf8 = true → config.base_dir.utf8 = false →
        (Env.apply self config w fuel).result = .panicked unwrap_none_msg)
    ∧ (w.temp_dir.utf8 = true → config.base_dir.utf8 = true →
        (Env.apply self config w fuel).result = .ok) := by
  rw [apply_resolved self s config w fuel hres]
  refine ⟨?_, ?_, ?_⟩
  · intro hmp
    unfold Env.emit
    rw [hmk]
    simp [OsPath.to_str, hmp]
  · intro hmp hbd
    unfold Env.emit
    rw [hmk]
    simp [OsPath.to_str, hmp, hbd]
  · intro htd hbd
    have hmp : p.utf8 = true := by
      rw [make_symlink_ok_utf8 w config fuel p fs2 hmk, htd]
    exact (emit_stdout_ok self s config w fuel p fs2 hmk hmp hbd).2

/-- Witness for C10 at a concrete invocation. -/
theorem utf8_unwrap_behavior_witness :
    (p0.utf8 = false →
      (Env.apply ⟨some bashShell, false, false⟩ cfg0 w0 1).result = .panicked unwrap_none_msg)
    ∧ (p0.utf8 = true → cfg0.base_dir.utf8 = false →
      (Env.apply ⟨some bashShell, false, false⟩ cfg0 w0 1).result = .panicked unwrap_none_msg)
    ∧ (w0.temp_dir.utf8 = true → cfg0.base_dir.utf8 = true →
      (Env.apply ⟨some bashShell, false, false⟩ cfg0 w0 1).result = .ok) :=
  utf8_unwrap_behavior ⟨some bashShell, false, false⟩ bashShell cfg0 w0 1 p0 fs0 rfl rfl

end Fnm
